import Mathlib

/-
Shallow embedding of the pdf-haven-reader viewer component and its proxy
fetch helper, with proofs of the spec-level properties.

The repository has two near-duplicate viewer variants:
  * the proxy variant (src/src/components/PDFViewer.tsx), whose file also
    carries the helper fetchPDFThroughProxy;
  * the buffer variant (src/unnamed/part_000), which fetches the PDF into an
    in-memory byte buffer via fetchPdf and downloads from that buffer.

State fields, handlers and message strings below are transcribed from the
TypeScript source.  JavaScript numbers that hold integer values are modelled
as Int, byte buffers as List Nat, nullable values as Option, and a thrown
Error as the Except.error of its message string.  JavaScript truthiness of a
nullable number (null and 0 are falsy) and of a nullable string (null and the
empty string are falsy) is modelled explicitly.
-/

namespace PDFHaven

/-- Component state of one viewer instance: the seven useState hooks of both
variants, in source order. -/
structure ViewerState where
  isLoading : Bool
  zoomLevel : Int
  isFullscreen : Bool
  numPages : Option Int
  pageNumber : Int
  pdfData : Option (List Nat)
  error : Option String
deriving Repr, DecidableEq

/-- Initial hook values: useState(true), useState(100), useState(false),
useState(null), useState(1), useState(null), useState(null). -/
def initialState : ViewerState :=
  { isLoading := true
    zoomLevel := 100
    isFullscreen := false
    numPages := none
    pageNumber := 1
    pdfData := none
    error := none }

/-- A toast notification as issued through useToast: title, description, and
whether the call passed the destructive variant. -/
structure Toast where
  title : String
  description : String
  destructive : Bool
deriving Repr, DecidableEq

/-- A triggered browser download: the filename given to the anchor element and
the bytes of the blob. -/
structure DownloadAction where
  filename : String
  data : List Nat
deriving Repr, DecidableEq

/-- A fetch Response as far as the component inspects it: ok flag, numeric
status, statusText, and the body bytes obtained via arrayBuffer. -/
structure HttpResponse where
  ok : Bool
  status : Int
  statusText : String
  body : List Nat
deriving Repr, DecidableEq

/-- Outcome of one call to the browser fetch API: either a response arrived
(possibly non-2xx), or the promise rejected with an Error message. -/
inductive FetchResult where
  | response (r : HttpResponse)
  | networkError (msg : String)
deriving Repr, DecidableEq

/-- A fetch outcome the source code treats as a failure: a rejected promise,
or a response with ok false. -/
def isFailure : FetchResult → Bool
  | .response r => !r.ok
  | .networkError _ => true

/-- JavaScript truthiness of a nullable number: null and 0 are falsy. -/
def truthyNum : Option Int → Bool
  | none => false
  | some n => n != 0

/-- JavaScript truthiness of a nullable string: null and the empty string are
falsy. -/
def truthyStr : Option String → Bool
  | none => false
  | some m => m != ""

/-- JavaScript string interpolation of a nullable number. -/
def jsNumToString : Option Int → String
  | some k => toString k
  | none => "null"

/-- handleZoom state update, both variants: newZoom is prev plus 25 for the
"in" direction and prev minus 25 otherwise, then Math.min(Math.max(newZoom,
50), 200). -/
def handleZoom (direction : String) (prev : Int) : Int :=
  let newZoom := if direction = "in" then prev + 25 else prev - 25
  min (max newZoom 50) 200

/-- changePage state update, both variants: newPage is prevPageNumber plus
offset; the result is Math.min(Math.max(1, newPage), numPages) when numPages
is truthy and 1 otherwise. -/
def changePage (offset : Int) (prevPageNumber : Int) (numPages : Option Int) : Int :=
  let newPage := prevPageNumber + offset
  match numPages with
  | some np => if np != 0 then min (max 1 newPage) np else 1
  | none => 1

/-- Iterated changePage calls with a fixed page count, as successive functional
state updates. -/
def runChangePages (offsets : List Int) (p : Int) (numPages : Option Int) : Int :=
  offsets.foldl (fun q off => changePage off q numPages) p

/-- onDocumentLoadSuccess, both variants: stores the callback numPages value,
sets isLoading false, and toasts the page count.  The PageDetails interface
types numPages as nullable, so the argument is an Option. -/
def onDocumentLoadSuccess (numPages : Option Int) (s : ViewerState) :
    ViewerState × List Toast :=
  ({ s with numPages := numPages, isLoading := false },
   [{ title := "PDF Loaded"
      description := "Document has " ++ jsNumToString numPages ++ " pages"
      destructive := false }])

/-- onDocumentLoadError, both variants: sets isLoading false, stores the
Error message, and issues one destructive toast. -/
def onDocumentLoadError (msg : String) (s : ViewerState) :
    ViewerState × List Toast :=
  ({ s with isLoading := false, error := some msg },
   [{ title := "Error Loading PDF"
      description := "Failed to load the PDF file: " ++ msg
      destructive := true }])

/-- handleDownload of the buffer variant: when pdfData is non-null (any
Uint8Array object is truthy) it builds a blob, triggers one anchor download
named document.pdf, and toasts; when pdfData is null nothing happens. -/
def handleDownload (s : ViewerState) : ViewerState × List Toast × List DownloadAction :=
  match s.pdfData with
  | some data =>
      (s,
       [{ title := "Download started"
          description := "Your PDF is being downloaded"
          destructive := false }],
       [{ filename := "document.pdf", data := data }])
  | none => (s, [], [])

/-- toggleFullscreen, both variants: the branch is taken on the browser
fullscreenElement, and the state flag is set accordingly. -/
def toggleFullscreen (fullscreenElement : Bool) (s : ViewerState) : ViewerState :=
  if !fullscreenElement then { s with isFullscreen := true }
  else { s with isFullscreen := false }

/-- fetchPdf of the buffer variant, applied to the outcome of its single fetch
call: sets isLoading true and error null, then on an ok response stores the
body bytes in pdfData; on a non-ok response the thrown message interpolates
response.status, is caught, stored in error and toasted destructively; a
rejected fetch is caught the same way with the Error message.  The finally
block sets isLoading false.  The Nat component counts the fetch calls the
control flow performs (one on every path). -/
def fetchPdf (r : FetchResult) (s : ViewerState) : ViewerState × List Toast × Nat :=
  let s1 := { s with isLoading := true, error := none }
  match r with
  | .response resp =>
      if resp.ok then
        ({ s1 with pdfData := some resp.body, isLoading := false }, [], 1)
      else
        let msg := "HTTP error! status: " ++ toString resp.status
        ({ s1 with error := some msg, isLoading := false },
         [{ title := "Error Fetching PDF", description := msg, destructive := true }],
         1)
  | .networkError msg =>
      ({ s1 with error := some msg, isLoading := false },
       [{ title := "Error Fetching PDF", description := msg, destructive := true }],
       1)

/-- The proxied URL built by fetchPDFThroughProxy.  encodeURIComponent is a
browser builtin, passed in as a parameter. -/
def proxyUrl (encodeURIComponent : String → String) (url : String) : String :=
  "https://corsproxy.io/?" ++ encodeURIComponent url

/-- fetchPDFThroughProxy (src/api/pdfProxy): one fetch of the proxied URL; an
ok response yields its body bytes, a non-ok response throws an Error whose
message prepends the fixed prefix to response.statusText; a rejected fetch
propagates.  The first component lists the URLs requested, in order. -/
def fetchPDFThroughProxy (encodeURIComponent : String → String)
    (fetch : String → FetchResult) (url : String) :
    List String × Except String (List Nat) :=
  let pu := proxyUrl encodeURIComponent url
  match fetch pu with
  | .networkError msg => ([pu], .error msg)
  | .response resp =>
      if resp.ok then ([pu], .ok resp.body)
      else ([pu], .error ("Failed to fetch PDF: " ++ resp.statusText))

/-- loadPDF of the proxy variant: sets isLoading true and error null, awaits
fetchPDFThroughProxy; on success stores the bytes in pdfData, on a caught
Error stores its message in error and toasts destructively; the finally block
sets isLoading false.  The last component is the list of URLs requested. -/
def loadPDF (encodeURIComponent : String → String) (fetch : String → FetchResult)
    (url : String) (s : ViewerState) : ViewerState × List Toast × List String :=
  let s1 := { s with isLoading := true, error := none }
  let out := fetchPDFThroughProxy encodeURIComponent fetch url
  match out.2 with
  | .ok data =>
      ({ s1 with pdfData := some data, isLoading := false }, [], out.1)
  | .error msg =>
      ({ s1 with error := some msg, isLoading := false },
       [{ title := "Error Loading PDF", description := msg, destructive := true }],
       out.1)

/-- Nodes that can appear in the page content area of the rendered tree. -/
inductive Node where
  | spinner
  | errorPanel (msg : String)
  | documentRenderer (pageNumber : Int) (zoomLevel : Int)
deriving Repr, DecidableEq

/-- Page content area of the proxy variant: the isLoading spinner overlay, the
error overlay (rendered when error is truthy), and the Document renderer,
which appears unconditionally. -/
def contentAreaProxy (s : ViewerState) : List Node :=
  (if s.isLoading then [Node.spinner] else []) ++
  (if truthyStr s.error then [Node.errorPanel (s.error.getD (""))] else []) ++
  [Node.documentRenderer s.pageNumber s.zoomLevel]

/-- Page content area of the buffer variant: as in the proxy variant, except
the Document renderer appears only when pdfData is truthy and error is not. -/
def contentAreaBuffer (s : ViewerState) : List Node :=
  (if s.isLoading then [Node.spinner] else []) ++
  (if truthyStr s.error then [Node.errorPanel (s.error.getD (""))] else []) ++
  (if s.pdfData.isSome && !truthyStr s.error then
    [Node.documentRenderer s.pageNumber s.zoomLevel]
   else [])

def isDocumentNode : Node → Bool
  | .documentRenderer _ _ => true
  | _ => false

/-- Whether the proxy variant renders the Document in a given state. -/
def showsDocumentProxy (s : ViewerState) : Bool :=
  (contentAreaProxy s).any isDocumentNode

/-- Whether the buffer variant renders the Document in a given state. -/
def showsDocumentBuffer (s : ViewerState) : Bool :=
  (contentAreaBuffer s).any isDocumentNode

/-- User operations and renderer callbacks of the buffer variant viewer, each
applied to the component state. -/
inductive Op where
  | zoomIn
  | zoomOut
  | page (offset : Int)
  | fetchDone (r : FetchResult)
  | download
  | fullscreen (fullscreenElement : Bool)
  | loadSuccess (numPages : Option Int)
  | loadError (msg : String)
deriving Repr, DecidableEq

def isLoadSuccess : Op → Bool
  | .loadSuccess _ => true
  | _ => false

/-- One step of the viewer state machine: each operation performs its state
updates (toasts and downloads do not feed back into the state). -/
def applyOp (op : Op) (s : ViewerState) : ViewerState :=
  match op with
  | .zoomIn => { s with zoomLevel := handleZoom ("in") s.zoomLevel }
  | .zoomOut => { s with zoomLevel := handleZoom ("out") s.zoomLevel }
  | .page offset => { s with pageNumber := changePage offset s.pageNumber s.numPages }
  | .fetchDone r => (fetchPdf r s).1
  | .download => (handleDownload s).1
  | .fullscreen e => toggleFullscreen e s
  | .loadSuccess n => (onDocumentLoadSuccess n s).1
  | .loadError m => (onDocumentLoadError m s).1

/-- Run a sequence of operations from a state. -/
def runOps (ops : List Op) (s : ViewerState) : ViewerState :=
  ops.foldl (fun st op => applyOp op st) s

/-! Helper lemmas -/

/-- handleZoom lands in the zoom bounds whatever the previous value and
direction, because the clamp is applied last. -/
theorem handleZoom_mem (direction : String) (prev : Int) :
    50 ≤ handleZoom direction prev ∧ handleZoom direction prev ≤ 200 := by
  unfold handleZoom
  constructor
  · exact le_min (le_trans (by norm_num) (le_max_right _ 50)) (by norm_num)
  · exact min_le_right _ _

/-- Every operation either leaves zoomLevel unchanged or writes a handleZoom
result. -/
theorem applyOp_zoomLevel (op : Op) (s : ViewerState) :
    (applyOp op s).zoomLevel = s.zoomLevel ∨
    ∃ d, (applyOp op s).zoomLevel = handleZoom d s.zoomLevel := by
  cases op with
  | zoomIn => exact Or.inr ⟨("in"), rfl⟩
  | zoomOut => exact Or.inr ⟨("out"), rfl⟩
  | page offset => exact Or.inl rfl
  | fetchDone r =>
      cases r with
      | response resp =>
          by_cases h : resp.ok = true
          · exact Or.inl (by simp [applyOp, fetchPdf, h])
          · exact Or.inl (by simp [applyOp, fetchPdf, h])
      | networkError msg => exact Or.inl rfl
  | download =>
      cases h : s.pdfData with
      | some data => exact Or.inl (by simp [applyOp, handleDownload, h])
      | none => exact Or.inl (by simp [applyOp, handleDownload, h])
  | fullscreen e =>
      cases e with
      | true => exact Or.inl rfl
      | false => exact Or.inl rfl
  | loadSuccess n => exact Or.inl rfl
  | loadError m => exact Or.inl rfl

/-- Operations other than loadSuccess leave numPages unchanged. -/
theorem applyOp_numPages (op : Op) (s : ViewerState) (h : isLoadSuccess op = false) :
    (applyOp op s).numPages = s.numPages := by
  cases op with
  | zoomIn => rfl
  | zoomOut => rfl
  | page offset => rfl
  | fetchDone r =>
      cases r with
      | response resp =>
          by_cases hok : resp.ok = true
          · simp [applyOp, fetchPdf, hok]
          · simp [applyOp, fetchPdf, hok]
      | networkError msg => rfl
  | download =>
      cases hd : s.pdfData with
      | some data => simp [applyOp, handleDownload, hd]
      | none => simp [applyOp, handleDownload, hd]
  | fullscreen e =>
      cases e with
      | true => rfl
      | false => rfl
  | loadSuccess n => simp [isLoadSuccess] at h
  | loadError m => rfl

/-- A step preserves the zoom bounds. -/
theorem applyOp_zoom_bounds (op : Op) (s : ViewerState)
    (h : 50 ≤ s.zoomLevel ∧ s.zoomLevel ≤ 200) :
    50 ≤ (applyOp op s).zoomLevel ∧ (applyOp op s).zoomLevel ≤ 200 := by
  rcases applyOp_zoomLevel op s with hfr | ⟨d, hd⟩
  · rw [hfr]; exact h
  · rw [hd]; exact handleZoom_mem d s.zoomLevel

/-- runOps on a cons. -/
theorem runOps_cons (op : Op) (ops : List Op) (s : ViewerState) :
    runOps (op :: ops) s = runOps ops (applyOp op s) := rfl

/-- The zoom bounds are preserved along any run. -/
theorem runOps_zoom_bounds (ops : List Op) :
    ∀ s : ViewerState, 50 ≤ s.zoomLevel ∧ s.zoomLevel ≤ 200 →
      50 ≤ (runOps ops s).zoomLevel ∧ (runOps ops s).zoomLevel ≤ 200 := by
  induction ops with
  | nil => intro s h; exact h
  | cons op rest ih =>
      intro s h
      rw [runOps_cons]
      exact ih (applyOp op s) (applyOp_zoom_bounds op s h)

/-- numPages is untouched along any run free of loadSuccess operations. -/
theorem runOps_numPages_frame (ops : List Op) :
    ∀ s : ViewerState, (∀ op ∈ ops, isLoadSuccess op = false) →
      (runOps ops s).numPages = s.numPages := by
  induction ops with
  | nil => intro s _; rfl
  | cons op rest ih =>
      intro s h
      rw [runOps_cons, ih (applyOp op s) (fun o ho => h o (List.mem_cons_of_mem op ho))]
      exact applyOp_numPages op s (h op (List.mem_cons_self op rest))

/-- changePage with a positive page count lands in bounds whatever the
previous page. -/
theorem changePage_mem (off q n : Int) (hn : 1 ≤ n) :
    1 ≤ changePage off q (some n) ∧ changePage off q (some n) ≤ n := by
  unfold changePage
  have hne : (n != 0) = true := by simp; omega
  simp only [hne, if_pos]
  constructor
  · exact le_min (le_max_left 1 (q + off)) hn
  · exact min_le_right _ _

/-- Iterated changePage calls stay in bounds once started in bounds. -/
theorem runChangePages_mem (offs : List Int) (n : Int) (hn : 1 ≤ n) :
    ∀ p : Int, 1 ≤ p → p ≤ n →
      1 ≤ runChangePages offs p (some n) ∧ runChangePages offs p (some n) ≤ n := by
  induction offs with
  | nil => intro p h1 h2; exact ⟨h1, h2⟩
  | cons off rest ih =>
      intro p _ _
      have hm := changePage_mem off p n hn
      exact ih (changePage off p (some n)) hm.1 hm.2

/-! Claim theorems -/

/-- C1: from the initial zoom of 100, every sequence of viewer operations
(zoom in, zoom out, page change, fetch completion, download, fullscreen
toggle, renderer callbacks) keeps zoomLevel — an integer by type — inside
[50, 200]; and handleZoom itself never produces a value below 50 or above
200, from any previous value. -/
theorem zoom_always_in_bounds :
    (∀ ops : List Op,
      50 ≤ (runOps ops initialState).zoomLevel ∧
      (runOps ops initialState).zoomLevel ≤ 200) ∧
    (∀ (direction : String) (prev : Int),
      50 ≤ handleZoom direction prev ∧ handleZoom direction prev ≤ 200) := by
  constructor
  · intro ops
    exact runOps_zoom_bounds ops initialState (by constructor <;> decide)
  · exact handleZoom_mem

/-- C2: with a loaded page count n of at least 1, changePage computes exactly
the clamp min (max 1 (p + off)) n, that single result lies in [1, n], and any
sequence of changePage calls started at a page in [1, n] stays in [1, n]. -/
theorem changePage_clamps_in_bounds (n p off : Int) (offs : List Int)
    (hn : 1 ≤ n) (hp1 : 1 ≤ p) (hp2 : p ≤ n) :
    changePage off p (some n) = min (max 1 (p + off)) n ∧
    1 ≤ changePage off p (some n) ∧ changePage off p (some n) ≤ n ∧
    1 ≤ runChangePages offs p (some n) ∧ runChangePages offs p (some n) ≤ n := by
  have hne : (n != 0) = true := by simp; omega
  refine ⟨?_, (changePage_mem off p n hn).1, (changePage_mem off p n hn).2,
    (runChangePages_mem offs n hn p hp1 hp2).1,
    (runChangePages_mem offs n hn p hp1 hp2).2⟩
  unfold changePage
  simp only [hne, if_pos]

/-- C2 witness: page count 3, page 1, single offset 5, then the sequence
[2, -10, 1]. -/
theorem changePage_clamps_in_bounds_witness :
    (1 : Int) ≤ 3 ∧ (1 : Int) ≤ 1 ∧ (1 : Int) ≤ 3 ∧
    (changePage 5 1 (some 3) = min (max 1 (1 + 5)) 3 ∧
     1 ≤ changePage 5 1 (some 3) ∧ changePage 5 1 (some 3) ≤ 3 ∧
     1 ≤ runChangePages [2, -10, 1] 1 (some 3) ∧
     runChangePages [2, -10, 1] 1 (some 3) ≤ 3) :=
  ⟨by norm_num, by norm_num, by norm_num,
   changePage_clamps_in_bounds 3 1 5 [2, -10, 1] (by norm_num) (by norm_num) (by norm_num)⟩

/-- C7: handleZoom steps by exactly 25 and then clamps: from any zoom of at
least 50, zooming in gives min (z + 25) 200; from any zoom of at most 200,
zooming out gives max (z - 25) 50. -/
theorem handleZoom_step_25 (z : Int) :
    (50 ≤ z → handleZoom ("in") z = min (z + 25) 200) ∧
    (z ≤ 200 → handleZoom ("out") z = max (z - 25) 50) := by
  constructor
  · intro h
    show min (max (z + 25) 50) 200 = min (z + 25) 200
    rw [max_eq_left (by omega : (50 : Int) ≤ z + 25)]
  · intro h
    show min (max (z - 25) 50) 200 = max (z - 25) 50
    rw [min_eq_left (max_le (by omega) (by omega))]

/-- C7 witness: both directions evaluated at the initial zoom of 100. -/
theorem handleZoom_step_25_witness :
    ((50 : Int) ≤ 100 ∧ handleZoom ("in") 100 = min (100 + 25) 200) ∧
    ((100 : Int) ≤ 200 ∧ handleZoom ("out") 100 = max (100 - 25) 50) :=
  ⟨⟨by norm_num, (handleZoom_step_25 100).1 (by norm_num)⟩,
   ⟨by norm_num, (handleZoom_step_25 100).2 (by norm_num)⟩⟩

/-- C8: numPages stays null along every run free of loadSuccess callbacks from
the initial state; the loadSuccess callback stores exactly the page count it
receives; and every other operation leaves numPages unchanged. -/
theorem numPages_only_written_by_loadSuccess :
    (∀ ops : List Op, (∀ op ∈ ops, isLoadSuccess op = false) →
        (runOps ops initialState).numPages = none) ∧
    (∀ (s : ViewerState) (n : Option Int),
        (applyOp (Op.loadSuccess n) s).numPages = n) ∧
    (∀ (s : ViewerState) (op : Op), isLoadSuccess op = false →
        (applyOp op s).numPages = s.numPages) := by
  refine ⟨?_, ?_, ?_⟩
  · intro ops h
    rw [runOps_numPages_frame ops initialState h]
    rfl
  · intro s n
    rfl
  · intro s op h
    exact applyOp_numPages op s h

/-- C8 witness: a run of a zoom and a download keeps numPages null, a
loadSuccess with 5 pages stores 5, and a zoom step leaves numPages alone. -/
theorem numPages_only_written_by_loadSuccess_witness :
    (runOps [Op.zoomIn, Op.download] initialState).numPages = none ∧
    (applyOp (Op.loadSuccess (some 5)) initialState).numPages = some 5 ∧
    (applyOp Op.zoomIn initialState).numPages = initialState.numPages :=
  ⟨numPages_only_written_by_loadSuccess.1 [Op.zoomIn, Op.download] (by decide),
   numPages_only_written_by_loadSuccess.2.1 initialState (some 5),
   numPages_only_written_by_loadSuccess.2.2 initialState Op.zoomIn (by decide)⟩

/-- C4 counterexample: onDocumentLoadSuccess does not write the error field,
so from a state whose error is a stale message the error stays that message
instead of being set to null. -/
theorem load_success_keeps_error :
    ((onDocumentLoadSuccess (some 3)
        { initialState with error := some ("stale failure") }).1).error
      = some ("stale failure") := rfl

/-- C4 amended: onDocumentLoadSuccess clears the loading flag and stores the
received page count, but leaves the error message exactly as it was; it never
writes the error field. -/
theorem load_success_sets_pages_keeps_error (s : ViewerState) (n : Option Int) :
    (onDocumentLoadSuccess n s).1.isLoading = false ∧
    (onDocumentLoadSuccess n s).1.numPages = n ∧
    (onDocumentLoadSuccess n s).1.error = s.error :=
  ⟨rfl, rfl, rfl⟩

/-- C3 counterexample: in the proxy variant the Document renderer is in the
content area even when the error message is non-null. -/
theorem proxy_renders_document_despite_error :
    showsDocumentProxy { initialState with error := some ("network failure") } = true := by
  decide

/-- C3 amended: only the buffer variant removes the Document renderer under a
truthy (non-null, non-empty) error message; the proxy variant keeps rendering
the Document in every state and merely adds an error overlay panel. -/
theorem error_hides_document_amended (s : ViewerState) (m : String)
    (hm : s.error = some m) (hne : m ≠ "") :
    showsDocumentBuffer s = false ∧ showsDocumentProxy s = true := by
  have ht : truthyStr s.error = true := by
    rw [hm]
    simp [truthyStr, hne]
  constructor
  · cases hl : s.isLoading <;>
      simp [showsDocumentBuffer, contentAreaBuffer, ht, hl, isDocumentNode]
  · cases hl : s.isLoading <;>
      simp [showsDocumentProxy, contentAreaProxy, ht, hl, isDocumentNode]

/-- C3 amended witness: the initial state carrying an error message. -/
theorem error_hides_document_amended_witness :
    ({ initialState with error := some ("boom") } : ViewerState).error = some ("boom") ∧
    ("boom" : String) ≠ "" ∧
    showsDocumentBuffer { initialState with error := some ("boom") } = false ∧
    showsDocumentProxy { initialState with error := some ("boom") } = true :=
  ⟨rfl, by decide,
   (error_hides_document_amended { initialState with error := some ("boom") }
     ("boom") rfl (by decide)).1,
   (error_hides_document_amended { initialState with error := some ("boom") }
     ("boom") rfl (by decide)).2⟩

/-- fetchPDFThroughProxy when the fetch rejects. -/
theorem fetchPDFThroughProxy_networkError (enc : String → String)
    (f : String → FetchResult) (u : String) (msg : String)
    (h : f (proxyUrl enc u) = FetchResult.networkError msg) :
    fetchPDFThroughProxy enc f u = ([proxyUrl enc u], Except.error msg) := by
  simp only [fetchPDFThroughProxy, h]

/-- fetchPDFThroughProxy when the fetch yields a response. -/
theorem fetchPDFThroughProxy_response (enc : String → String)
    (f : String → FetchResult) (u : String) (resp : HttpResponse)
    (h : f (proxyUrl enc u) = FetchResult.response resp) :
    fetchPDFThroughProxy enc f u =
      if resp.ok then ([proxyUrl enc u], Except.ok resp.body)
      else ([proxyUrl enc u],
            Except.error ("Failed to fetch PDF: " ++ resp.statusText)) := by
  simp only [fetchPDFThroughProxy, h]

/-- C6: fetchPDFThroughProxy requests exactly the concatenation of the proxy
base and the encoded URL, once; an ok response returns the body bytes
unchanged; a non-ok response yields an Error whose message is the fixed
prefix followed by statusText, so it begins with that prefix. -/
theorem fetchPDFThroughProxy_spec (enc : String → String) (f : String → FetchResult)
    (u : String) (resp : HttpResponse)
    (hf : f (proxyUrl enc u) = FetchResult.response resp) :
    (fetchPDFThroughProxy enc f u).1 = ["https://corsproxy.io/?" ++ enc u] ∧
    (resp.ok = true → (fetchPDFThroughProxy enc f u).2 = Except.ok resp.body) ∧
    (resp.ok = false →
      (fetchPDFThroughProxy enc f u).2 =
        Except.error ("Failed to fetch PDF: " ++ resp.statusText) ∧
      ∃ rest, (fetchPDFThroughProxy enc f u).2 =
        Except.error ("Failed to fetch PDF: " ++ rest)) := by
  have he := fetchPDFThroughProxy_response enc f u resp hf
  by_cases hok : resp.ok = true
  · rw [if_pos hok] at he
    refine ⟨?_, fun _ => ?_, fun hcon => ?_⟩
    · rw [he]
      rfl
    · rw [he]
    · rw [hok] at hcon
      exact absurd hcon (by simp)
  · have hok2 : resp.ok = false := by
      cases h : resp.ok
      · rfl
      · exact absurd h hok
    rw [if_neg hok] at he
    refine ⟨?_, fun hcon => ?_, fun _ => ⟨?_, ⟨resp.statusText, ?_⟩⟩⟩
    · rw [he]
      rfl
    · rw [hok2] at hcon
      exact absurd hcon (by simp)
    · rw [he]
    · rw [he]

/-- A fetch function that always yields a 404 response, for witnesses. -/
def constResponse404 : String → FetchResult :=
  fun _ => FetchResult.response { ok := false, status := 404, statusText := "Not Found", body := [] }

/-- C6 witness: a 404 response through the identity encoder. -/
theorem fetchPDFThroughProxy_spec_witness :
    constResponse404 (proxyUrl id ("http://example.com/a.pdf")) =
      FetchResult.response { ok := false, status := 404, statusText := "Not Found", body := [] } ∧
    ((fetchPDFThroughProxy id constResponse404 ("http://example.com/a.pdf")).1 =
      ["https://corsproxy.io/?" ++ id ("http://example.com/a.pdf")] ∧
    (({ ok := false, status := 404, statusText := "Not Found", body := [] } : HttpResponse).ok = true →
      (fetchPDFThroughProxy id constResponse404 ("http://example.com/a.pdf")).2 =
        Except.ok ({ ok := false, status := 404, statusText := "Not Found", body := [] } : HttpResponse).body) ∧
    (({ ok := false, status := 404, statusText := "Not Found", body := [] } : HttpResponse).ok = false →
      (fetchPDFThroughProxy id constResponse404 ("http://example.com/a.pdf")).2 =
        Except.error ("Failed to fetch PDF: " ++
          ({ ok := false, status := 404, statusText := "Not Found", body := [] } : HttpResponse).statusText) ∧
      ∃ rest, (fetchPDFThroughProxy id constResponse404 ("http://example.com/a.pdf")).2 =
        Except.error ("Failed to fetch PDF: " ++ rest))) :=
  ⟨rfl,
   fetchPDFThroughProxy_spec id constResponse404 ("http://example.com/a.pdf")
     { ok := false, status := 404, statusText := "Not Found", body := [] } rfl⟩

/-- fetchPdf on a response outcome, unfolded. -/
theorem fetchPdf_response (resp : HttpResponse) (s : ViewerState) :
    fetchPdf (FetchResult.response resp) s =
      if resp.ok then
        ({ { s with isLoading := true, error := none } with
            pdfData := some resp.body, isLoading := false }, [], 1)
      else
        ({ { s with isLoading := true, error := none } with
            error := some ("HTTP error! status: " ++ toString resp.status),
            isLoading := false },
         [{ title := "Error Fetching PDF"
            description := "HTTP error! status: " ++ toString resp.status
            destructive := true }],
         1) := rfl

/-- C5: any failed fetch outcome — rejected promise or non-ok response — is
surfaced by the buffer variant fetchPdf and by the proxy variant loadPDF as
exactly one destructive toast and a non-null inline error holding the same
message string, with exactly one request performed and no retry. -/
theorem fetch_failure_surfaced_once (s : ViewerState) (r : FetchResult)
    (enc : String → String) (f : String → FetchResult) (url : String)
    (hfail : isFailure r = true) (hf : f (proxyUrl enc url) = r) :
    ((fetchPdf r s).2.2 = 1 ∧
     ∃ t : Toast, (fetchPdf r s).2.1 = [t] ∧ t.destructive = true ∧
       (fetchPdf r s).1.error = some t.description) ∧
    ((loadPDF enc f url s).2.2.length = 1 ∧
     ∃ t : Toast, (loadPDF enc f url s).2.1 = [t] ∧ t.destructive = true ∧
       (loadPDF enc f url s).1.error = some t.description) := by
  cases r with
  | networkError msg =>
      have he := fetchPDFThroughProxy_networkError enc f url msg hf
      refine ⟨⟨rfl, ⟨{ title := "Error Fetching PDF", description := msg, destructive := true },
        rfl, rfl, rfl⟩⟩, ?_⟩
      have hl : loadPDF enc f url s =
          ({ { s with isLoading := true, error := none } with
              error := some msg, isLoading := false },
           [{ title := "Error Loading PDF", description := msg, destructive := true }],
           [proxyUrl enc url]) := by
        unfold loadPDF
        rw [he]
      rw [hl]
      exact ⟨rfl, ⟨{ title := "Error Loading PDF", description := msg, destructive := true },
        rfl, rfl, rfl⟩⟩
  | response resp =>
      have hok : resp.ok = false := by
        simp [isFailure] at hfail
        exact hfail
      have he := fetchPDFThroughProxy_response enc f url resp hf
      rw [if_neg (by simp [hok])] at he
      constructor
      · rw [fetchPdf_response, if_neg (by simp [hok])]
        exact ⟨rfl, ⟨{ title := "Error Fetching PDF"
                       description := "HTTP error! status: " ++ toString resp.status
                       destructive := true }, rfl, rfl, rfl⟩⟩
      · have hl : loadPDF enc f url s =
            ({ { s with isLoading := true, error := none } with
                error := some ("Failed to fetch PDF: " ++ resp.statusText),
                isLoading := false },
             [{ title := "Error Loading PDF"
                description := "Failed to fetch PDF: " ++ resp.statusText
                destructive := true }],
             [proxyUrl enc url]) := by
          unfold loadPDF
          rw [he]
        rw [hl]
        exact ⟨rfl, ⟨{ title := "Error Loading PDF"
                       description := "Failed to fetch PDF: " ++ resp.statusText
                       destructive := true }, rfl, rfl, rfl⟩⟩

/-- A fetch function that always rejects, for witnesses. -/
def constNetworkFailure : String → FetchResult :=
  fun _ => FetchResult.networkError ("connection reset")

/-- C5 witness: a rejected fetch surfaced by both variants from the initial
state. -/
theorem fetch_failure_surfaced_once_witness :
    isFailure (FetchResult.networkError ("connection reset")) = true ∧
    constNetworkFailure (proxyUrl id ("http://example.com/a.pdf")) =
      FetchResult.networkError ("connection reset") ∧
    (((fetchPdf (FetchResult.networkError ("connection reset")) initialState).2.2 = 1 ∧
      ∃ t : Toast,
        (fetchPdf (FetchResult.networkError ("connection reset")) initialState).2.1 = [t] ∧
        t.destructive = true ∧
        (fetchPdf (FetchResult.networkError ("connection reset")) initialState).1.error =
          some t.description) ∧
     ((loadPDF id constNetworkFailure ("http://example.com/a.pdf") initialState).2.2.length = 1 ∧
      ∃ t : Toast,
        (loadPDF id constNetworkFailure ("http://example.com/a.pdf") initialState).2.1 = [t] ∧
        t.destructive = true ∧
        (loadPDF id constNetworkFailure ("http://example.com/a.pdf") initialState).1.error =
          some t.description)) :=
  ⟨rfl, rfl,
   fetch_failure_surfaced_once initialState (FetchResult.networkError ("connection reset"))
     id constNetworkFailure ("http://example.com/a.pdf") rfl rfl⟩

/-- C9: while numPages is still null, changePage returns 1 for every offset
and every previous page number. -/
theorem changePage_null_numPages (offset p : Int) :
    changePage offset p none = 1 := rfl

/-- C10: in the buffer variant, handleDownload with a null pdfData buffer
triggers no download, issues no toast, and returns the state unchanged. -/
theorem handleDownload_noop_when_no_data (s : ViewerState) (h : s.pdfData = none) :
    handleDownload s = (s, [], []) := by
  unfold handleDownload
  rw [h]

/-- C10 witness: the initial state has a null buffer. -/
theorem handleDownload_noop_when_no_data_witness :
    initialState.pdfData = none ∧ handleDownload initialState = (initialState, [], []) :=
  ⟨rfl, handleDownload_noop_when_no_data initialState rfl⟩

end PDFHaven
